import Mathlib

/-!
Verification of the LibreMesh hardware-in-the-loop test harness
(`SysupgradeDriver` in src/drivers/sysupgrade_driver.py and
`PhysicalDeviceStrategy` in src/strategies/physicalstrategy.py).

The Python drivers are shallowly embedded: every remote/serial interaction is
an oracle value supplied through an environment record, every observable action
(power commands, capability activation, command execution, file upload) is
recorded in an effect trace, and every Python `raise` becomes an `Except.error`
with a constructor per distinct error message.  Sleeps are not traced (they
carry no observable state), and command execution is idealized as instantaneous
so the polling-loop clock advances only by the fixed retry interval.
-/

namespace LibreMeshHIL

/-- Result of a shell/SSH command as the labgrid drivers return it:
`(stdout lines, stderr lines, exit code)`. -/
structure RunResult where
  stdout : List String
  stderr : List String
  exitCode : Int
deriving DecidableEq

/-- Python `needle in haystack` substring test. -/
def containsSubstr (haystack needle : String) : Bool :=
  (List.range (haystack.toList.length + 1)).any
    (fun i => needle.toList.isPrefixOf (haystack.toList.drop i))

/-- Python `s.startswith(pre)`. -/
def pyStartsWith (s pre : String) : Bool :=
  pre.toList.isPrefixOf s.toList

/-- Split a character list at every character satisfying `p` (keeping empty
groups, like `str.split(sep)` does). -/
def splitList (p : Char → Bool) : List Char → List (List Char)
  | [] => [[]]
  | c :: cs =>
    if p c then [] :: splitList p cs
    else
      match splitList p cs with
      | [] => [[c]]
      | g :: gs => (c :: g) :: gs

/-- Python `str.split()` with no argument: split on whitespace, dropping
empty fields. -/
def pySplit (s : String) : List String :=
  ((splitList Char.isWhitespace s.toList).map String.mk).filter (fun t => t != "")

/-- Drop characters satisfying `p` from both ends of a string. -/
def stripWhile (p : Char → Bool) (s : String) : String :=
  String.mk (((s.toList.dropWhile p).reverse.dropWhile p).reverse)

/-- Python `str.strip()` with no argument: strip whitespace from both ends. -/
def pyStrip (s : String) : String :=
  stripWhile Char.isWhitespace s

/-- Python `str.strip(chars)`: drop the given characters from both ends. -/
def stripChars (s : String) (cs : List Char) : String :=
  stripWhile (fun c => cs.contains c) s

/-- Python `s.split(sep, 1)` for a single-character separator: `none` when the
separator does not occur. -/
def splitFirst (sep : Char) (s : String) : Option (String × String) :=
  match s.toList.dropWhile (fun x => x != sep) with
  | [] => none
  | _ :: rest => some (String.mk (s.toList.takeWhile (fun x => x != sep)), String.mk rest)

/-- Decimal digits of a character list, most significant first. -/
def parseDigits (l : List Char) : Option Nat :=
  if l = [] then none
  else
    l.foldl
      (fun acc c =>
        match acc with
        | none => none
        | some n => if c.isDigit then some (n * 10 + (c.toNat - 48)) else none)
      (some 0)

/-- Python `int(s)` on an optionally signed decimal string (digit grouping
with underscores is not modelled; none of the parsed device outputs use
it). -/
def pyInt (s : String) : Option Int :=
  match s.toList with
  | '-' :: rest => (parseDigits rest).map (fun n => -(n : Int))
  | '+' :: rest => (parseDigits rest).map (fun n => (n : Int))
  | l => (parseDigits l).map (fun n => (n : Int))

/-- Python `sep.join(parts)`. -/
def pyJoin (sep : String) : List String → String
  | [] => ""
  | [x] => x
  | x :: y :: xs => x ++ sep ++ pyJoin sep (y :: xs)

/-! ## Sysupgrade driver (src/drivers/sysupgrade_driver.py) -/

/-- Module-level constant `DEFAULT_REMOTE_PATH`. -/
def DEFAULT_REMOTE_PATH : String := "/tmp/sysupgrade.bin"

/-- Module-level constant `BYTES_PER_KILOBYTE`. -/
def BYTES_PER_KILOBYTE : Int := 1024

/-- Module-level constant `BYTES_PER_MEGABYTE`. -/
def BYTES_PER_MEGABYTE : Int := 1024 * 1024

/-- Errors raised by the sysupgrade driver (`StrategyError` in the source,
one constructor per distinct message, plus `pyException` for the uncaught
IndexError/ValueError that `_check_tmp_space` can hit on malformed `df`
output). -/
inductive FlashErr where
  /-- "`sysupgrade` is not available on the device. ..." -/
  | sysupgradeMissing
  /-- "Failed to read board name (exit code ...)" -/
  | boardReadFailed
  /-- "No board name returned from device" -/
  | boardNoOutput
  /-- "Could not extract board name from output (only kernel messages found)" -/
  | boardOnlyKernelMessages
  /-- "Board mismatch! Device: ..., Expected: .... Refusing to flash
  incompatible firmware." -/
  | boardMismatch (device expected : String)
  /-- "Local SHA256 mismatch! Got: ..., Expected: ..." -/
  | localShaMismatch (actual expected : String)
  /-- "Cannot upload firmware without SSH: ..." -/
  | sshUnavailable
  /-- "Failed to check /tmp free space" -/
  | tmpSpaceCheckFailed
  /-- an uncaught Python exception (IndexError/ValueError outside any try) -/
  | pyException
  /-- "Insufficient space in /tmp: ... available, ... required" -/
  | insufficientSpace (availableBytes requiredBytes : Int)
  /-- `ssh.put` raised (uncaught, propagates out of `flash`) -/
  | sshPutFailed
  /-- "Failed to get file size for ..." -/
  | sizeReadFailed
  /-- "Failed to parse file size from ls output: ..." -/
  | sizeParseFailed
  /-- "Remote file size mismatch! Got: ... bytes, Expected: ... bytes.
  Upload may be truncated or corrupted." -/
  | sizeMismatch (got expected : Int)
  /-- "Failed to calculate SHA256 on device for ..." -/
  | shaRunFailed
  /-- "sha256sum returned no output for ..." -/
  | shaNoOutput
  /-- "Failed to parse sha256sum output: ..." -/
  | shaParseFailed
  /-- "Remote SHA256 mismatch! Got: ..., Expected: .... Upload corrupted." -/
  | sha256Mismatch (got expected : String)
  /-- "Firmware validation failed: ..." (`sysupgrade -T` rejected the image) -/
  | validationFailed
deriving DecidableEq

/-- Observable actions of one `flash` run, in order. `sysupgradeExec` marks
the final, destructive `ssh_driver.run(sysupgrade_command)` call (line 498 of
the source); the non-destructive `sysupgrade -T` acceptance check appears as a
plain `sshRun`. -/
inductive FlashEff where
  | activateShell
  | activateSSH
  | shellRun (cmd : String)
  | sshRun (cmd : String)
  | put (src dst : String)
  | sysupgradeExec (cmd : String)
  | sleepSec (n : Nat)
deriving DecidableEq

/-- Attributes of `SysupgradeDriver` (attr.ib fields). -/
structure SysupgradeCfg where
  keep_config : Bool
  force : Bool
  allow_downgrade : Option Bool
  expected_board : Option String
  skip_if_installed : Bool
  tmp_space_margin_mb : Int
  remote_path : String
  validate_only : Bool
  verify_boot_timeout : Nat

/-- `__attrs_post_init__`: `allow_downgrade` defaults to `force`. -/
def allowDowngradeEffective (cfg : SysupgradeCfg) : Bool :=
  cfg.allow_downgrade.getD cfg.force

/-- Oracle for everything `flash` reads from the device or the local
filesystem.  `localSha256`/`localSize` stand for `_calculate_sha256` and
`os.path.getsize` on the image (the hash function itself is opaque). -/
structure FlashEnv where
  sysupgradeCheck : RunResult
  boardNameResult : RunResult
  releaseResult : RunResult
  sshAvailable : Bool
  dfResult : RunResult
  putOk : Bool
  statResult : RunResult
  lsResult : RunResult
  sha256Result : RunResult
  validateResult : RunResult
  localSha256 : String
  localSize : Int

/-- Keyword arguments of `SysupgradeDriver.flash`. -/
structure FlashArgs where
  image_path : String
  keep_config : Option Bool
  validate : Bool
  expected_sha256 : Option String
  expected_version : Option String
  validate_only : Option Bool

/-- A computation step of the driver: a result plus its effect trace. -/
def FlashM (α : Type) : Type := Except FlashErr α × List FlashEff

/-- Sequencing: an exception short-circuits, effects accumulate in order. -/
def bindE {α β : Type} (x : FlashM α) (f : α → FlashM β) : FlashM β :=
  match x with
  | (Except.error e, l) => (Except.error e, l)
  | (Except.ok a, l) => ((f a).1, l ++ (f a).2)

/-- `_check_sysupgrade_available`: `command -v sysupgrade` must exit 0 with
non-empty stdout. -/
def check_sysupgrade_available (r : RunResult) : FlashM Unit :=
  (if r.exitCode ≠ 0 ∨ r.stdout = [] then Except.error FlashErr.sysupgradeMissing
   else Except.ok (),
   [FlashEff.shellRun "command -v sysupgrade"])

/-- The list-comprehension filter in `_get_board_name`: strip each line, keep
non-empty lines that do not start with `[` (kernel messages). -/
def boardLines (stdout : List String) : List String :=
  (stdout.map pyStrip).filter (fun l => l != "" && !(pyStartsWith l "["))

/-- `_get_board_name` (pure part; the command it runs is
`cat /tmp/sysinfo/board_name`). -/
def get_board_name (r : RunResult) : Except FlashErr String :=
  if r.exitCode ≠ 0 then Except.error FlashErr.boardReadFailed
  else if r.stdout = [] then Except.error FlashErr.boardNoOutput
  else
    match boardLines r.stdout with
    | [] => Except.error FlashErr.boardOnlyKernelMessages
    | b :: _ => Except.ok b

/-- `validate_board`: skipped (with a warning) when no `expected_board` is
configured; otherwise reads the board name and refuses on mismatch.  The
`_warn_ubi_mismatch` advisory only logs and is not modelled. -/
def validate_board (cfg : SysupgradeCfg) (env : FlashEnv) : FlashM Unit :=
  match cfg.expected_board with
  | none => (Except.ok (), [])
  | some expected =>
    match get_board_name env.boardNameResult with
    | Except.error e => (Except.error e, [FlashEff.shellRun "cat /tmp/sysinfo/board_name"])
    | Except.ok bn =>
      (if bn ≠ expected then Except.error (FlashErr.boardMismatch bn expected)
       else Except.ok (),
       [FlashEff.shellRun "cat /tmp/sysinfo/board_name"])

/-- `verify_local_checksum`: compares the locally computed SHA-256 against an
optional expected value and returns the computed hash. -/
def verify_local_checksum (localSha : String) (expected : Option String) :
    Except FlashErr String :=
  match expected with
  | none => Except.ok localSha
  | some e =>
    if localSha ≠ e then Except.error (FlashErr.localShaMismatch localSha e)
    else Except.ok localSha

/-- One line of `/etc/openwrt_release`: `key, value = line.split('=', 1)`,
value stripped of whitespace then of surrounding quotes. -/
def parseReleaseLine (line : String) : Option (String × String) :=
  match splitFirst '=' line with
  | none => none
  | some (key, value) => some (key, stripChars (pyStrip value) ['\'', '"'])

/-- `_get_installed_version`: reads `/etc/openwrt_release` and builds the
version dictionary. -/
def get_installed_version (r : RunResult) :
    Except FlashErr (List (String × String)) :=
  if r.exitCode ≠ 0 then Except.error FlashErr.pyException
  else Except.ok (r.stdout.filterMap parseReleaseLine)

/-- Python dict semantics for the association list built by
`_get_installed_version`: the last binding of a key wins; `.get(k, d)`. -/
def dictGetD (l : List (String × String)) (k d : String) : String :=
  match (l.filter (fun p => p.1 == k)).getLast? with
  | some p => p.2
  | none => d

/-- Python truthiness of the optional version string. -/
def optTruthy : Option String → Bool
  | none => false
  | some v => v != ""

/-- `check_if_installed`: false for a falsy version; any error while reading
the installed version is caught and logged, yielding false; otherwise true iff
the expected version is a substring of `DISTRIB_RELEASE` or
`DISTRIB_REVISION`. -/
def check_if_installed (r : RunResult) (expected : Option String) :
    Bool × List FlashEff :=
  match expected with
  | none => (false, [])
  | some v =>
    if v = "" then (false, [])
    else
      match get_installed_version r with
      | Except.error _ => (false, [FlashEff.shellRun "cat /etc/openwrt_release"])
      | Except.ok info =>
        (containsSubstr (dictGetD info "DISTRIB_RELEASE" "") v
           || containsSubstr (dictGetD info "DISTRIB_REVISION" "") v,
         [FlashEff.shellRun "cat /etc/openwrt_release"])

/-- The guarded skip check inside `flash`:
`if self.skip_if_installed and expected_version: if self.check_if_installed(...)`. -/
def skip_if_installed_check (cfg : SysupgradeCfg) (env : FlashEnv)
    (ev : Option String) : FlashM Bool :=
  if cfg.skip_if_installed && optTruthy ev then
    (Except.ok (check_if_installed env.releaseResult ev).1,
     (check_if_installed env.releaseResult ev).2)
  else (Except.ok false, [])

/-- `_check_tmp_space`: `df -P /tmp | tail -1`, field 3 is available KB;
required bytes are the image size plus the configured MB margin.  Index or
parse failures on the `df` line are uncaught Python exceptions in the
source. -/
def check_tmp_space (cfg : SysupgradeCfg) (df : RunResult)
    (requiredBytes : Int) : FlashM Unit :=
  let effs := [FlashEff.sshRun "df -P /tmp | tail -1"]
  if df.exitCode ≠ 0 then (Except.error FlashErr.tmpSpaceCheckFailed, effs)
  else
    match df.stdout with
    | [] => (Except.error FlashErr.pyException, effs)
    | line :: _ =>
      match (pySplit line).get? 3 with
      | none => (Except.error FlashErr.pyException, effs)
      | some f =>
        match pyInt f with
        | none => (Except.error FlashErr.pyException, effs)
        | some kb =>
          let availableBytes := kb * BYTES_PER_KILOBYTE
          let required := requiredBytes + cfg.tmp_space_margin_mb * BYTES_PER_MEGABYTE
          (if availableBytes < required then
             Except.error (FlashErr.insufficientSpace availableBytes required)
           else Except.ok (), effs)

/-- The `ls -l` fallback of `_get_remote_file_size`: field 4 of the first
output line, with IndexError/ValueError caught and turned into the
"Failed to parse file size" error. -/
def size_via_ls (rp : String) (ls : RunResult) : FlashM Int :=
  let lsEff := FlashEff.sshRun ("ls -l " ++ rp)
  if ls.exitCode ≠ 0 then (Except.error FlashErr.sizeReadFailed, [lsEff])
  else
    match ls.stdout with
    | [] => (Except.error FlashErr.sizeParseFailed, [lsEff])
    | line :: _ =>
      match (pySplit line).get? 4 with
      | none => (Except.error FlashErr.sizeParseFailed, [lsEff])
      | some f =>
        match pyInt f with
        | none => (Except.error FlashErr.sizeParseFailed, [lsEff])
        | some n => (Except.ok n, [lsEff])

/-- `_get_remote_file_size`: try `stat -c %s` (exit 0, non-empty stdout,
parseable integer), otherwise fall back to `ls -l`. -/
def get_remote_file_size (rp : String) (stat ls : RunResult) : FlashM Int :=
  let statEff := FlashEff.sshRun ("stat -c %s " ++ rp)
  if stat.exitCode = 0 then
    match stat.stdout with
    | [] => ((size_via_ls rp ls).1, statEff :: (size_via_ls rp ls).2)
    | line :: _ =>
      match pyInt (pyStrip line) with
      | some n => (Except.ok n, [statEff])
      | none => ((size_via_ls rp ls).1, statEff :: (size_via_ls rp ls).2)
  else ((size_via_ls rp ls).1, statEff :: (size_via_ls rp ls).2)

/-- `_get_remote_sha256`: `sha256sum <path>`, first whitespace field of the
first stdout line. -/
def get_remote_sha256 (rp : String) (sha : RunResult) : FlashM String :=
  let effs := [FlashEff.sshRun ("sha256sum " ++ rp)]
  if sha.exitCode ≠ 0 then (Except.error FlashErr.shaRunFailed, effs)
  else
    match sha.stdout with
    | [] => (Except.error FlashErr.shaNoOutput, effs)
    | line :: _ =>
      match (pySplit line).get? 0 with
      | none => (Except.error FlashErr.shaParseFailed, effs)
      | some h => (Except.ok h, effs)

/-- `verify_remote_integrity`: size first (distinct "size mismatch" error),
then checksum (distinct "SHA256 mismatch" error). -/
def verify_remote_integrity (rp : String) (stat ls sha : RunResult)
    (expected_sha : String) (expected_size : Int) : FlashM Unit :=
  bindE (get_remote_file_size rp stat ls) fun remote_size =>
    if remote_size ≠ expected_size then
      (Except.error (FlashErr.sizeMismatch remote_size expected_size), [])
    else
      bindE (get_remote_sha256 rp sha) fun remote_sha =>
        if remote_sha ≠ expected_sha then
          (Except.error (FlashErr.sha256Mismatch remote_sha expected_sha), [])
        else (Except.ok (), [])

/-- The final sysupgrade command line assembled in `flash`:
`-n` unless config is kept, `-F` when downgrade is allowed. -/
def sysupgradeCommand (keep_config allow_dg : Bool) (rp : String) : String :=
  pyJoin " "
    (["sysupgrade"] ++ (if !keep_config then ["-n"] else [])
      ++ (if allow_dg then ["-F"] else []) ++ [rp])

/-- `SysupgradeDriver.flash`: the full check sequence.  The final
`ssh_driver.run(sysupgrade_command)` has its exceptions swallowed (the
connection drops as the device reboots), so the last step always succeeds. -/
def flash (cfg : SysupgradeCfg) (env : FlashEnv) (args : FlashArgs) :
    FlashM Unit :=
  let keep_config := args.keep_config.getD cfg.keep_config
  let validate_only := args.validate_only.getD cfg.validate_only
  bindE ((Except.ok (), [FlashEff.activateShell]) : FlashM Unit) fun _ =>
  bindE (check_sysupgrade_available env.sysupgradeCheck) fun _ =>
  bindE (validate_board cfg env) fun _ =>
  bindE ((verify_local_checksum env.localSha256 args.expected_sha256, []) : FlashM String)
    fun local_sha256 =>
  bindE (skip_if_installed_check cfg env args.expected_version) fun installed =>
  if installed then (Except.ok (), [])
  else
    bindE ((if env.sshAvailable then (Except.ok (), [FlashEff.activateSSH])
            else (Except.error FlashErr.sshUnavailable, [])) : FlashM Unit) fun _ =>
    bindE (check_tmp_space cfg env.dfResult env.localSize) fun _ =>
    bindE (((if env.putOk then Except.ok () else Except.error FlashErr.sshPutFailed),
            [FlashEff.put args.image_path cfg.remote_path]) : FlashM Unit) fun _ =>
    bindE (verify_remote_integrity cfg.remote_path env.statResult env.lsResult
            env.sha256Result local_sha256 env.localSize) fun _ =>
    bindE ((if args.validate then
              ((if env.validateResult.exitCode ≠ 0 then
                  Except.error FlashErr.validationFailed
                else Except.ok ()),
               [FlashEff.sshRun ("sysupgrade -T " ++ cfg.remote_path)])
            else (Except.ok (), [])) : FlashM Unit) fun _ =>
    if validate_only then (Except.ok (), [])
    else
      (Except.ok (),
       [FlashEff.sysupgradeExec
          (sysupgradeCommand keep_config (allowDowngradeEffective cfg) cfg.remote_path),
        FlashEff.sleepSec cfg.verify_boot_timeout])

/-! ## Physical device strategy (src/strategies/physicalstrategy.py) -/

/-- `Status` enum of the strategy. -/
inductive Status where
  | unknown
  | off
  | shell
deriving DecidableEq

/-- `Timeouts.SHELL_RETRY_INTERVAL` (seconds between shell poll attempts). -/
def SHELL_RETRY_INTERVAL : Nat := 2

/-- `WakeConsoleConfig.ATTEMPTS`. -/
def WAKE_CONSOLE_ATTEMPTS : Nat := 3

/-- `Indices.TEST_ACTIVE_MATCH`. -/
def TEST_ACTIVE_MATCH : Nat := 0

/-- `Indices.PROMPT_MATCH`. -/
def PROMPT_MATCH : Nat := 2

/-- The pattern list passed to `serial_driver.expect` in
`_check_shell_active`. -/
def shellCheckPatterns : List String := ["test_active", "login:", "#"]

/-- `StrategyError`s raised by the modelled strategy operations. -/
inductive StratErr where
  /-- "Cannot transition to Status.unknown" -/
  | cannotTransitionToUnknown
  /-- "Shell not ready after ...s" -/
  | shellNotReady (timeout : Nat)
deriving DecidableEq

/-- Observable actions of the strategy, in order of occurrence. -/
inductive StratEff where
  | activatePower
  | powerOn
  | powerOff
  | activateShell
  | activateSerial
  | activateIsolator
  | isolatorDisconnect
  | isolatorConnect
  | serialSend (line : String)
  | shellRun (cmd : String)
deriving DecidableEq

/-- Configuration attributes of `PhysicalDeviceStrategy` used by the modelled
operations, plus the presence of the two optional drivers resolved in
`__attrs_post_init__`. -/
structure StratCfg where
  requires_serial_disconnect : Bool
  smart_state_detection : Bool
  hasSerialIsolator : Bool
  hasSerialDriver : Bool
  boot_wait : Nat
  connection_timeout : Nat

/-- Oracle for the device's behaviour during one transition:
`serialProbe` is the outcome of the `expect` in `_check_shell_active`
(`none` = timeout/exception, `some i` = matched pattern index);
`shellAttempts k` is the outcome of the k-th `shell.run "echo ready"`
(`none` = the attempt raised). -/
structure StratEnv where
  serialProbe : Option Nat
  shellAttempts : Nat → Option RunResult

/-- `_check_shell_active`: false without smart detection; a missing
SerialDriver or any exception/timeout of the probe is caught and counts as
"not active"; otherwise true exactly for pattern indices 0 (`test_active`
echo) and 2 (`#` prompt), not 1 (`login:`). -/
def check_shell_active (cfg : StratCfg) (probe : Option Nat) :
    Bool × List StratEff :=
  if !cfg.smart_state_detection then (false, [])
  else if !cfg.hasSerialDriver then (false, [])
  else
    (match probe with
     | none => false
     | some i => i == TEST_ACTIVE_MATCH || i == PROMPT_MATCH,
     [StratEff.serialSend "echo test_active"])

/-- `_is_shell_ready`: exceptions (`none`) are caught and count as not ready;
otherwise exit code 0, non-empty stdout, and `"ready"` contained in the first
stdout line. -/
def is_shell_ready (r : Option RunResult) : Bool :=
  match r with
  | none => false
  | some r =>
    match r.stdout with
    | [] => false
    | l0 :: _ => r.exitCode == 0 && containsSubstr l0 "ready"

/-- `_wake_console`: only if the optional SerialDriver is present; sendline
exceptions are swallowed. -/
def wake_console (cfg : StratCfg) : List StratEff :=
  if cfg.hasSerialDriver then
    StratEff.activateSerial :: List.replicate WAKE_CONSOLE_ATTEMPTS (StratEff.serialSend "")
  else []

/-- The polling loop of `_wait_for_shell`, with the clock idealized so each
failed attempt advances elapsed time by `SHELL_RETRY_INTERVAL`.  Returns the
result and the number of attempts made; the fuel is an upper bound on loop
iterations and is never exhausted when called with
`connection_timeout + 1`. -/
def wait_loop (attempts : Nat → Option RunResult) (timeout : Nat) :
    Nat → Nat → Nat → Except StratErr Unit × Nat
  | 0, k, _ => (Except.error (StratErr.shellNotReady timeout), k)
  | fuel + 1, k, elapsed =>
    if elapsed < timeout then
      if is_shell_ready (attempts k) then (Except.ok (), k + 1)
      else wait_loop attempts timeout fuel (k + 1) (elapsed + SHELL_RETRY_INTERVAL)
    else (Except.error (StratErr.shellNotReady timeout), k)

/-- Number of poll attempts `_wait_for_shell` makes before the
`connection_timeout` ceiling lapses (attempt k starts at elapsed time
`2 * k`). -/
def numShellAttempts (timeout : Nat) : Nat := (timeout + 1) / 2

/-- `_wait_for_shell`: wake the console, activate the shell capability, poll
until ready or the timeout ceiling lapses. -/
def wait_for_shell (cfg : StratCfg) (env : StratEnv) :
    Except StratErr Unit × Nat × List StratEff :=
  let out := wait_loop env.shellAttempts cfg.connection_timeout
    (cfg.connection_timeout + 1) 0 0
  (out.1, out.2,
   wake_console cfg ++ [StratEff.activateShell]
     ++ List.replicate out.2 (StratEff.shellRun "echo ready"))

/-- `_power_on_and_wait_for_shell`: fast probe first (full short-circuit on
match), then power-on (with or without serial isolation), then the shell
wait. -/
def power_on_and_wait_for_shell (cfg : StratCfg) (env : StratEnv) :
    Except StratErr Unit × List StratEff :=
  let probe := check_shell_active cfg env.serialProbe
  if probe.1 then (Except.ok (), probe.2)
  else
    let powerEffs :=
      if cfg.requires_serial_disconnect && cfg.hasSerialIsolator then
        [StratEff.activatePower, StratEff.activateIsolator, StratEff.powerOff,
         StratEff.isolatorDisconnect, StratEff.powerOn, StratEff.isolatorConnect]
      else [StratEff.activatePower, StratEff.powerOn]
    let w := wait_for_shell cfg env
    (w.1, probe.2 ++ powerEffs ++ w.2.2)

/-- `PhysicalDeviceStrategy.transition`: target `unknown` is an error with no
side effects; a no-op transition re-activates the shell capability for target
`shell` and does nothing else; `off` activates power and issues `off()`;
`shell` runs the power-on/wait sequence and then activates the shell.  On a
raised error the cached status is left unchanged. -/
def transitionTo (cfg : StratCfg) (env : StratEnv) (st target : Status) :
    Except StratErr Unit × Status × List StratEff :=
  if target = Status.unknown then
    (Except.error StratErr.cannotTransitionToUnknown, st, [])
  else if st = target then
    (Except.ok (), st,
     if target = Status.shell then [StratEff.activateShell] else [])
  else
    match target with
    | Status.unknown => (Except.error StratErr.cannotTransitionToUnknown, st, [])
    | Status.off => (Except.ok (), Status.off, [StratEff.activatePower, StratEff.powerOff])
    | Status.shell =>
      match power_on_and_wait_for_shell cfg env with
      | (Except.ok _, effs) => (Except.ok (), Status.shell, effs ++ [StratEff.activateShell])
      | (Except.error e, effs) => (Except.error e, st, effs)

/-- `ensure_off`: no-op when the cached status is already `off`. -/
def ensure_off (cfg : StratCfg) (env : StratEnv) (st : Status) :
    Status × List StratEff :=
  if st ≠ Status.off then
    ((transitionTo cfg env st Status.off).2.1, (transitionTo cfg env st Status.off).2.2)
  else (st, [])

/-- `force_power_cycle`: smart detection is disabled and the cached status
reset to `unknown` before the shell transition is re-run; the `finally` block
restores the original flag whether the transition succeeded or raised, which
is the `Bool` component of the result. -/
def force_power_cycle (cfg : StratCfg) (env : StratEnv) (_st : Status) :
    (Except StratErr Unit × Status × List StratEff) × Bool :=
  (transitionTo { cfg with smart_state_detection := false } env
     Status.unknown Status.shell,
   cfg.smart_state_detection)

/-! ## Boot-with-recovery loop (`flash_firmware` path) -/

/-- Errors of `_attempt_boot_with_recovery`. -/
inductive RecErr where
  /-- "Device failed to boot after firmware flash and N recovery attempts" -/
  | recoveryExhausted (maxAttempts : Nat)
  /-- "Device failed to boot after firmware flash" (recovery not attempted) -/
  | bootFailed
  /-- fuel exhaustion artifact of the embedding; unreachable from
  `attempt_boot_with_recovery` -/
  | fuelExhausted
deriving DecidableEq

/-- The loop body of `_attempt_boot_with_recovery`.  `bootOk n` is whether
`_try_boot_and_configure` succeeds with `recovery_attempt = n`; `recoveryOk n`
is whether the n-th `attempt_uboot_recovery` call completes without raising.
A failed recovery is swallowed unless it is the final attempt
(`n + 1 >= max_recovery_attempts`), which raises the exhaustion error.
The second component counts invocations of the recovery engine. -/
def bootRecoveryLoop (enable : Bool) (maxA : Nat) (bootOk recoveryOk : Nat → Bool) :
    Nat → Nat → Except RecErr Unit × Nat
  | 0, _ => (Except.error RecErr.fuelExhausted, 0)
  | fuel + 1, n =>
    if bootOk n then (Except.ok (), 0)
    else if decide (n < maxA) && enable then
      if recoveryOk n then
        let r := bootRecoveryLoop enable maxA bootOk recoveryOk fuel (n + 1)
        (r.1, r.2 + 1)
      else if maxA ≤ n + 1 then (Except.error (RecErr.recoveryExhausted maxA), 1)
      else
        let r := bootRecoveryLoop enable maxA bootOk recoveryOk fuel (n + 1)
        (r.1, r.2 + 1)
    else (Except.error RecErr.bootFailed, 0)

/-- `_attempt_boot_with_recovery` starting from `recovery_attempt = 0`.
The `while recovery_attempt <= max_recovery_attempts` guard never goes false
(the counter only increments after a recovery made at `n < maxA`), so
`maxA + 1` fuel covers every iteration the Python loop can run. -/
def attempt_boot_with_recovery (enable : Bool) (maxA : Nat)
    (bootOk recoveryOk : Nat → Bool) : Except RecErr Unit × Nat :=
  bootRecoveryLoop enable maxA bootOk recoveryOk (maxA + 1) 0

/-! ## Spec-side rendering for claim C5 -/

/-- Modelled from the spec's words for comparison only (claim C5): an attempt
"succeeds exactly when the echo command's exit status is zero and its output
contains the expected marker" — marker anywhere in the joined stdout. -/
def attemptSucceedsSpec (r : RunResult) : Bool :=
  r.exitCode == 0 && containsSubstr (pyJoin "\n" r.stdout) "ready"

/-! ## Helper lemmas -/

/-- Number of `power.off()` calls in a trace. -/
def countPowerOff (l : List StratEff) : Nat :=
  l.countP (fun e => decide (e = StratEff.powerOff))

theorem transition_unknown_eq (cfg : StratCfg) (env : StratEnv) (st : Status) :
    transitionTo cfg env st Status.unknown
      = (Except.error StratErr.cannotTransitionToUnknown, st, []) := by
  simp [transitionTo]

/-! ## Claim theorems -/

/-- C6: for every call to `transition` with target state Unknown, a fatal
error is raised, the effect trace is empty (no power command, no capability
activation), and the cached state is unchanged. -/
theorem transition_unknown_is_error_c6 :
    ∀ (cfg : StratCfg) (env : StratEnv) (st : Status),
      transitionTo cfg env st Status.unknown
        = (Except.error StratErr.cannotTransitionToUnknown, st, []) :=
  transition_unknown_eq

/-- C7: a transition whose requested state equals the cached state issues no
power command; ShellReady→ShellReady still re-activates the shell capability
(trace exactly `[activateShell]`), PoweredOff→PoweredOff does nothing at all;
and two consecutive `ensure_off` calls issue `power.off()` at most once, the
second call being a no-op. -/
theorem noop_transition_no_power_c7 :
    ∀ (cfg : StratCfg) (env : StratEnv) (st : Status),
      StratEff.powerOn ∉ (transitionTo cfg env st st).2.2
      ∧ StratEff.powerOff ∉ (transitionTo cfg env st st).2.2
      ∧ (transitionTo cfg env Status.shell Status.shell).2.2 = [StratEff.activateShell]
      ∧ (transitionTo cfg env Status.off Status.off).2.2 = []
      ∧ (ensure_off cfg env (ensure_off cfg env st).1).2 = []
      ∧ countPowerOff ((ensure_off cfg env st).2
          ++ (ensure_off cfg env (ensure_off cfg env st).1).2) ≤ 1 := by
  intro cfg env st
  cases st <;> simp [transitionTo, ensure_off, countPowerOff, List.countP_cons]

/-- C10: in the fast-path probe, a match of the "login:" pattern (index 1)
never counts as shell-ready; only the echoed tag (index 0) or the "#" prompt
(index 2) makes `_check_shell_active` return true. -/
theorem login_prompt_not_ready_c10 :
    (∀ (cfg : StratCfg), (check_shell_active cfg (some 1)).1 = false)
    ∧ (∀ (cfg : StratCfg), cfg.smart_state_detection = true →
        cfg.hasSerialDriver = true →
        (check_shell_active cfg (some TEST_ACTIVE_MATCH)).1 = true
        ∧ (check_shell_active cfg (some PROMPT_MATCH)).1 = true)
    ∧ shellCheckPatterns.get? 1 = some "login:"
    ∧ shellCheckPatterns.get? TEST_ACTIVE_MATCH = some "test_active"
    ∧ shellCheckPatterns.get? PROMPT_MATCH = some "#" := by
  refine ⟨?_, ?_, rfl, rfl, rfl⟩
  · intro cfg
    cases hs : cfg.smart_state_detection <;> cases hd : cfg.hasSerialDriver <;>
      simp [check_shell_active, hs, hd, TEST_ACTIVE_MATCH, PROMPT_MATCH]
  · intro cfg hs hd
    constructor <;> simp [check_shell_active, hs, hd, TEST_ACTIVE_MATCH, PROMPT_MATCH]

/-- Witness for C10 at a concrete configuration. -/
theorem login_prompt_not_ready_c10_witness :
    (check_shell_active ⟨false, true, false, true, 20, 60⟩ (some 0)).1 = true :=
  (login_prompt_not_ready_c10.2.1 ⟨false, true, false, true, 20, 60⟩ rfl rfl).1

/-- C4: when smart detection is on and the serial fast-probe matches (echoed
tag, index 0, or shell prompt, index 2), the transition to ShellReady
succeeds with final state ShellReady and the trace contains no power
activation, no power-on, no power-off and no isolator action: power-on
sequence, boot wait and isolation are all skipped. -/
theorem fast_probe_skips_power_c4 :
    ∀ (cfg : StratCfg) (env : StratEnv) (st : Status) (i : Nat),
      cfg.smart_state_detection = true → cfg.hasSerialDriver = true →
      env.serialProbe = some i →
      (i = TEST_ACTIVE_MATCH ∨ i = PROMPT_MATCH) →
      (transitionTo cfg env st Status.shell).1 = Except.ok ()
      ∧ (transitionTo cfg env st Status.shell).2.1 = Status.shell
      ∧ StratEff.activatePower ∉ (transitionTo cfg env st Status.shell).2.2
      ∧ StratEff.powerOn ∉ (transitionTo cfg env st Status.shell).2.2
      ∧ StratEff.powerOff ∉ (transitionTo cfg env st Status.shell).2.2
      ∧ StratEff.isolatorDisconnect ∉ (transitionTo cfg env st Status.shell).2.2
      ∧ StratEff.isolatorConnect ∉ (transitionTo cfg env st Status.shell).2.2 := by
  intro cfg env st i hs hd hp hi
  have hact : check_shell_active cfg env.serialProbe
      = (true, [StratEff.serialSend "echo test_active"]) := by
    rcases hi with rfl | rfl <;>
      simp [check_shell_active, hs, hd, hp, TEST_ACTIVE_MATCH, PROMPT_MATCH]
  cases st <;>
    simp [transitionTo, power_on_and_wait_for_shell, hact]

/-- Witness for C4 at a concrete configuration and probe outcome. -/
theorem fast_probe_skips_power_c4_witness :
    (transitionTo ⟨false, true, false, true, 20, 60⟩ ⟨some 0, fun _ => none⟩
        Status.unknown Status.shell).1 = Except.ok () :=
  (fast_probe_skips_power_c4 ⟨false, true, false, true, 20, 60⟩
    ⟨some 0, fun _ => none⟩ Status.unknown 0 rfl rfl rfl (Or.inl rfl)).1

/-- C9: `force_power_cycle` restores the smart-detection flag to its
pre-call value whatever the inner transition returns (the `finally` restore),
behaves identically for every incoming cached state (the state is reset to
Unknown before the transition is re-run), and always issues a real power-on
because the fast probe is bypassed. -/
theorem force_power_cycle_restores_c9 :
    ∀ (cfg : StratCfg) (env : StratEnv) (st st' : Status),
      (force_power_cycle cfg env st).2 = cfg.smart_state_detection
      ∧ force_power_cycle cfg env st = force_power_cycle cfg env st'
      ∧ StratEff.powerOn ∈ (force_power_cycle cfg env st).1.2.2 := by
  intro cfg env st st'
  refine ⟨rfl, rfl, ?_⟩
  show StratEff.powerOn ∈
    (transitionTo { cfg with smart_state_detection := false } env
      Status.unknown Status.shell).2.2
  have hact : check_shell_active { cfg with smart_state_detection := false }
      env.serialProbe = (false, []) := by
    simp [check_shell_active]
  simp only [transitionTo, power_on_and_wait_for_shell, hact]
  cases hw : (wait_for_shell { cfg with smart_state_detection := false } env).1 <;>
    cases hiso : cfg.requires_serial_disconnect && cfg.hasSerialIsolator <;>
      simp [hw, hiso]

theorem bootRecoveryLoop_count_le (enable : Bool) (maxA : Nat)
    (bootOk recoveryOk : Nat → Bool) :
    ∀ (fuel n : Nat),
      (bootRecoveryLoop enable maxA bootOk recoveryOk fuel n).2 ≤ maxA - n := by
  intro fuel
  induction fuel with
  | zero => intro n; simp [bootRecoveryLoop]
  | succ fuel ih =>
    intro n
    simp only [bootRecoveryLoop]
    split
    · simp
    · split
      · rename_i hrec
        have hlt : n < maxA := by
          have := (Bool.and_eq_true _ _).mp hrec
          exact of_decide_eq_true this.1
        split
        · have := ih (n + 1)
          simp only []
          omega
        · split
          · simp; omega
          · have := ih (n + 1)
            simp only []
            omega
      · simp

theorem bootRecoveryLoop_all_boot_fail (enable : Bool) (maxA : Nat)
    (bootOk recoveryOk : Nat → Bool) (hb : ∀ n, bootOk n = false) :
    ∀ (fuel n : Nat),
      ∃ e, (bootRecoveryLoop enable maxA bootOk recoveryOk fuel n).1
        = Except.error e := by
  intro fuel
  induction fuel with
  | zero => intro n; exact ⟨RecErr.fuelExhausted, rfl⟩
  | succ fuel ih =>
    intro n
    simp only [bootRecoveryLoop]
    split
    · rename_i h
      rw [hb n] at h
      simp at h
    · split
      · split
        · exact ih (n + 1)
        · split
          · exact ⟨RecErr.recoveryExhausted maxA, rfl⟩
          · exact ih (n + 1)
      · exact ⟨RecErr.bootFailed, rfl⟩

/-- C2: the recovery engine is invoked at most `max_recovery_attempts` times;
when every boot attempt fails, `_attempt_boot_with_recovery` always raises a
fatal error (also with recovery disabled); and in the spec's scenario C
(`max_recovery_attempts = 2`, boot and recovery always failing) exactly two
recovery invocations happen before the exhaustion error, while with recovery
disabled the fatal error comes after zero invocations. -/
theorem recovery_bound_c2 :
    (∀ (enable : Bool) (maxA : Nat) (bootOk recoveryOk : Nat → Bool),
      (attempt_boot_with_recovery enable maxA bootOk recoveryOk).2 ≤ maxA)
    ∧ (∀ (enable : Bool) (maxA : Nat) (bootOk recoveryOk : Nat → Bool),
        (∀ n, bootOk n = false) →
        ∃ e, (attempt_boot_with_recovery enable maxA bootOk recoveryOk).1
          = Except.error e)
    ∧ attempt_boot_with_recovery true 2 (fun _ => false) (fun _ => false)
        = (Except.error (RecErr.recoveryExhausted 2), 2)
    ∧ attempt_boot_with_recovery false 2 (fun _ => false) (fun _ => false)
        = (Except.error RecErr.bootFailed, 0) := by
  refine ⟨?_, ?_, rfl, rfl⟩
  · intro enable maxA bootOk recoveryOk
    have := bootRecoveryLoop_count_le enable maxA bootOk recoveryOk (maxA + 1) 0
    simpa [attempt_boot_with_recovery] using this
  · intro enable maxA bootOk recoveryOk hb
    exact bootRecoveryLoop_all_boot_fail enable maxA bootOk recoveryOk hb (maxA + 1) 0

/-- Witness for C2's all-boots-fail part at a concrete instance. -/
theorem recovery_bound_c2_witness :
    ∃ e, (attempt_boot_with_recovery true 1 (fun _ => false) (fun _ => true)).1
      = Except.error e :=
  recovery_bound_c2.2.1 true 1 (fun _ => false) (fun _ => true) (fun _ => rfl)

theorem wait_loop_result (a : Nat → Option RunResult) (t : Nat) :
    ∀ (fuel k e : Nat),
      (wait_loop a t fuel k e).1 = Except.ok ()
      ∨ (wait_loop a t fuel k e).1 = Except.error (StratErr.shellNotReady t) := by
  intro fuel
  induction fuel with
  | zero => intro k e; right; rfl
  | succ fuel ih =>
    intro k e
    simp only [wait_loop]
    split
    · split
      · left; rfl
      · exact ih (k + 1) (e + SHELL_RETRY_INTERVAL)
    · right; rfl

theorem wait_loop_ok_iff (a : Nat → Option RunResult) (t : Nat) :
    ∀ (fuel k : Nat), numShellAttempts t ≤ k + fuel →
      ((wait_loop a t fuel k (SHELL_RETRY_INTERVAL * k)).1 = Except.ok ()
        ↔ ∃ j, k ≤ j ∧ j < numShellAttempts t ∧ is_shell_ready (a j) = true) := by
  intro fuel
  induction fuel with
  | zero =>
    intro k hk
    constructor
    · intro h; exact absurd h (by simp [wait_loop])
    · rintro ⟨j, hkj, hjN, _⟩
      exact absurd hjN (by omega)
  | succ fuel ih =>
    intro k hk
    have hcond : (SHELL_RETRY_INTERVAL * k < t) ↔ (k < numShellAttempts t) := by
      simp only [SHELL_RETRY_INTERVAL, numShellAttempts]
      omega
    simp only [wait_loop]
    by_cases hlt : SHELL_RETRY_INTERVAL * k < t
    · rw [if_pos hlt]
      by_cases hr : is_shell_ready (a k) = true
      · rw [if_pos hr]
        constructor
        · intro _
          exact ⟨k, Nat.le_refl k, hcond.mp hlt, hr⟩
        · intro _; rfl
      · rw [if_neg hr]
        have hmul : SHELL_RETRY_INTERVAL * k + SHELL_RETRY_INTERVAL
            = SHELL_RETRY_INTERVAL * (k + 1) := by ring
        rw [hmul, ih (k + 1) (by omega)]
        constructor
        · rintro ⟨j, hj1, hj2, hj3⟩
          exact ⟨j, by omega, hj2, hj3⟩
        · rintro ⟨j, hj1, hj2, hj3⟩
          refine ⟨j, ?_, hj2, hj3⟩
          rcases Nat.eq_or_lt_of_le hj1 with h | h
          · subst h; exact absurd hj3 hr
          · omega
    · rw [if_neg hlt]
      constructor
      · intro h; exact absurd h (by simp)
      · rintro ⟨j, hj1, hj2, _⟩
        exact absurd (hcond.mpr (by omega)) hlt

theorem wait_for_shell_ok_iff (cfg : StratCfg) (env : StratEnv) :
    (wait_for_shell cfg env).1 = Except.ok ()
      ↔ ∃ j, j < numShellAttempts cfg.connection_timeout
          ∧ is_shell_ready (env.shellAttempts j) = true := by
  have h := wait_loop_ok_iff env.shellAttempts cfg.connection_timeout
    (cfg.connection_timeout + 1) 0
    (by simp only [numShellAttempts]; omega)
  simpa [wait_for_shell, SHELL_RETRY_INTERVAL] using h

/-- C5 (amended): a poll attempt succeeds exactly when the command's exit
status is zero, stdout is non-empty, and the FIRST stdout line contains the
marker "ready"; an attempt that raised (`none`) counts as a failed attempt
and is never propagated (the whole loop returns either success or the single
timeout error); the loop succeeds iff some attempt within the
connection_timeout ceiling is ready, and otherwise raises the fatal
"Shell not ready" error to the caller. -/
theorem shell_poll_criterion_c5 :
    (is_shell_ready none = false)
    ∧ (∀ r : RunResult, is_shell_ready (some r) = true ↔
        (r.exitCode = 0 ∧ ∃ l0 rest, r.stdout = l0 :: rest
          ∧ containsSubstr l0 "ready" = true))
    ∧ (∀ (cfg : StratCfg) (env : StratEnv),
        ((wait_for_shell cfg env).1 = Except.ok ()
          ↔ ∃ j, j < numShellAttempts cfg.connection_timeout
              ∧ is_shell_ready (env.shellAttempts j) = true))
    ∧ (∀ (cfg : StratCfg) (env : StratEnv),
        (wait_for_shell cfg env).1 ≠ Except.ok () →
        (wait_for_shell cfg env).1
          = Except.error (StratErr.shellNotReady cfg.connection_timeout)) := by
  refine ⟨rfl, ?_, wait_for_shell_ok_iff, ?_⟩
  · intro r
    cases r with
    | mk out err code =>
      cases out with
      | nil => simp [is_shell_ready]
      | cons l0 rest =>
        simp only [is_shell_ready, Bool.and_eq_true, beq_iff_eq]
        constructor
        · rintro ⟨h1, h2⟩; exact ⟨h1, l0, rest, rfl, h2⟩
        · rintro ⟨h1, l0', rest', heq, h2⟩
          cases heq
          exact ⟨h1, h2⟩
  · intro cfg env hne
    rcases wait_loop_result env.shellAttempts cfg.connection_timeout
      (cfg.connection_timeout + 1) 0 0 with h | h
    · exact absurd h hne
    · exact h

/-- Witness for C5 at a concrete environment: ready on the second attempt
within a 5-second ceiling. -/
theorem shell_poll_criterion_c5_witness :
    (wait_for_shell ⟨false, true, false, true, 20, 5⟩
        ⟨none, fun k => if k == 1 then some ⟨["ready"], [], 0⟩ else none⟩).1
      = Except.ok () :=
  (shell_poll_criterion_c5.2.2.1 ⟨false, true, false, true, 20, 5⟩
    ⟨none, fun k => if k == 1 then some ⟨["ready"], [], 0⟩ else none⟩).mpr
      ⟨1, by decide, by decide⟩

/-- C5 counterexample to the claim as stated: with exit status 0 and output
`["boot noise", "ready"]` the marker is contained in the command's output,
yet `_is_shell_ready` is false because it looks only at the first stdout
line (`result[Indices.STDOUT][0]`). -/
theorem shell_poll_spec_mismatch_c5 :
    attemptSucceedsSpec ⟨["boot noise", "ready"], [], 0⟩ = true
    ∧ is_shell_ready (some ⟨["boot noise", "ready"], [], 0⟩) = false := by
  exact ⟨by decide, by decide⟩

/-! ## Effect-trace lemmas for `flash` -/

/-- True exactly on the destructive sysupgrade invocation effect. -/
def isSysupgradeExec : FlashEff → Bool
  | FlashEff.sysupgradeExec _ => true
  | _ => false

/-- Whether a trace contains the destructive sysupgrade invocation. -/
def hasExec (l : List FlashEff) : Bool := l.any isSysupgradeExec

theorem bindE_ok {α β : Type} (r : α) (l : List FlashEff) (f : α → FlashM β) :
    bindE (Except.ok r, l) f = ((f r).1, l ++ (f r).2) := rfl

theorem bindE_error {α β : Type} (e : FlashErr) (l : List FlashEff)
    (f : α → FlashM β) : bindE (Except.error e, l) f = (Except.error e, l) := rfl

theorem hasExec_append (l m : List FlashEff) :
    hasExec (l ++ m) = (hasExec l || hasExec m) := List.any_append

theorem bindE_exec {α : Type} (x : FlashM α) (f : α → FlashM Unit)
    (hx : hasExec x.2 = false)
    (hf : ∀ a, hasExec (f a).2 = true → (f a).1 = Except.ok ()) :
    hasExec (bindE x f).2 = true → (bindE x f).1 = Except.ok () := by
  obtain ⟨r, l⟩ := x
  cases r with
  | error e =>
    intro h
    rw [bindE_error] at h
    rw [hx] at h
    exact Bool.noConfusion h
  | ok a =>
    intro h
    rw [bindE_ok] at h ⊢
    rw [hasExec_append, hx, Bool.false_or] at h
    exact hf a h

theorem bindE_hasExec_false {α β : Type} (x : FlashM α) (f : α → FlashM β)
    (hx : hasExec x.2 = false) (hf : ∀ a, hasExec (f a).2 = false) :
    hasExec (bindE x f).2 = false := by
  obtain ⟨r, l⟩ := x
  cases r with
  | error e => exact hx
  | ok a =>
    rw [bindE_ok, hasExec_append, hx, hf a]
    rfl

theorem hasExec_check_sysupgrade_available (r : RunResult) :
    hasExec (check_sysupgrade_available r).2 = false := rfl

theorem validate_board_effs (cfg : SysupgradeCfg) (env : FlashEnv) :
    ∀ x ∈ (validate_board cfg env).2,
      x = FlashEff.shellRun "cat /tmp/sysinfo/board_name" := by
  unfold validate_board
  split
  · intro x hx; simp at hx
  · split <;> (intro x hx; simpa using hx)

theorem hasExec_validate_board (cfg : SysupgradeCfg) (env : FlashEnv) :
    hasExec (validate_board cfg env).2 = false := by
  unfold validate_board
  split
  · rfl
  · split <;> rfl

theorem check_if_installed_effs (r : RunResult) (ev : Option String) :
    ∀ x ∈ (check_if_installed r ev).2,
      x = FlashEff.shellRun "cat /etc/openwrt_release" := by
  unfold check_if_installed
  rcases ev with _ | v
  · intro x hx; simp at hx
  · dsimp only
    by_cases hv : v = ""
    · rw [if_pos hv]; intro x hx; simp at hx
    · rw [if_neg hv]
      rcases h : get_installed_version r with e | info <;>
        (intro x hx; simpa using hx)

theorem hasExec_check_if_installed (r : RunResult) (ev : Option String) :
    hasExec (check_if_installed r ev).2 = false := by
  unfold check_if_installed
  rcases ev with _ | v
  · rfl
  · dsimp only
    by_cases hv : v = ""
    · rw [if_pos hv]; rfl
    · rw [if_neg hv]
      rcases h : get_installed_version r with e | info <;> rfl

theorem hasExec_skip_check (cfg : SysupgradeCfg) (env : FlashEnv)
    (ev : Option String) :
    hasExec (skip_if_installed_check cfg env ev).2 = false := by
  unfold skip_if_installed_check
  split
  · exact hasExec_check_if_installed env.releaseResult ev
  · rfl

theorem hasExec_check_tmp_space (cfg : SysupgradeCfg) (df : RunResult)
    (req : Int) : hasExec (check_tmp_space cfg df req).2 = false := by
  unfold check_tmp_space
  split
  · rfl
  · split
    · rfl
    · split
      · rfl
      · split <;> rfl

theorem size_via_ls_effs (rp : String) (ls : RunResult) :
    (size_via_ls rp ls).2 = [FlashEff.sshRun ("ls -l " ++ rp)] := by
  unfold size_via_ls
  split
  · rfl
  · split
    · rfl
    · split
      · rfl
      · split <;> rfl

theorem hasExec_get_remote_file_size (rp : String) (stat ls : RunResult) :
    hasExec (get_remote_file_size rp stat ls).2 = false := by
  have hls : hasExec (size_via_ls rp ls).2 = false := by
    rw [size_via_ls_effs]; rfl
  unfold get_remote_file_size
  split
  · split
    · show hasExec (size_via_ls rp ls).2 = false
      exact hls
    · split
      · rfl
      · show hasExec (size_via_ls rp ls).2 = false
        exact hls
  · show hasExec (size_via_ls rp ls).2 = false
    exact hls

theorem hasExec_get_remote_sha256 (rp : String) (sha : RunResult) :
    hasExec (get_remote_sha256 rp sha).2 = false := by
  unfold get_remote_sha256
  split
  · rfl
  · split
    · rfl
    · split <;> rfl

theorem hasExec_verify_remote_integrity (rp : String) (stat ls sha : RunResult)
    (S : String) (Z : Int) :
    hasExec (verify_remote_integrity rp stat ls sha S Z).2 = false := by
  unfold verify_remote_integrity
  apply bindE_hasExec_false _ _ (hasExec_get_remote_file_size rp stat ls)
  intro rs
  split
  · rfl
  · apply bindE_hasExec_false _ _ (hasExec_get_remote_sha256 rp sha)
    intro rh
    split <;> rfl

theorem flash_exec_implies_ok (cfg : SysupgradeCfg) (env : FlashEnv)
    (args : FlashArgs) :
    hasExec (flash cfg env args).2 = true → (flash cfg env args).1 = Except.ok () := by
  unfold flash
  apply bindE_exec _ _ (by rfl)
  intro _
  apply bindE_exec _ _ (hasExec_check_sysupgrade_available _)
  intro _
  apply bindE_exec _ _ (hasExec_validate_board _ _)
  intro _
  apply bindE_exec _ _ (by rfl)
  intro local_sha256
  apply bindE_exec _ _ (hasExec_skip_check _ _ _)
  intro installed
  cases installed with
  | true => intro _; rfl
  | false =>
    apply bindE_exec _ _ (by cases env.sshAvailable <;> rfl)
    intro _
    apply bindE_exec _ _ (hasExec_check_tmp_space _ _ _)
    intro _
    apply bindE_exec _ _ (by rfl)
    intro _
    apply bindE_exec _ _ (hasExec_verify_remote_integrity _ _ _ _ _ _)
    intro _
    apply bindE_exec _ _ (by cases args.validate <;> rfl)
    intro _
    intro _
    split <;> rfl

theorem verify_remote_integrity_eq (rp : String) (stat ls sha : RunResult)
    (S : String) (Z rs : Int) (rh : String)
    (h1 : (get_remote_file_size rp stat ls).1 = Except.ok rs)
    (h2 : (get_remote_sha256 rp sha).1 = Except.ok rh) :
    (verify_remote_integrity rp stat ls sha S Z).1 =
      (if rs ≠ Z then Except.error (FlashErr.sizeMismatch rs Z)
       else if rh ≠ S then Except.error (FlashErr.sha256Mismatch rh S)
       else Except.ok ()) := by
  have e1 : get_remote_file_size rp stat ls
      = (Except.ok rs, (get_remote_file_size rp stat ls).2) := Prod.ext h1 rfl
  have e2 : get_remote_sha256 rp sha
      = (Except.ok rh, (get_remote_sha256 rp sha).2) := Prod.ext h2 rfl
  unfold verify_remote_integrity
  rw [e1, bindE_ok]
  dsimp only
  by_cases hrs : rs ≠ Z
  · rw [if_pos hrs, if_pos hrs]
  · rw [if_neg hrs, if_neg hrs, e2, bindE_ok]
    dsimp only
    by_cases hrh : rh ≠ S
    · rw [if_pos hrh, if_pos hrh]
    · rw [if_neg hrh, if_neg hrh]

/-- C1: when the remote size and checksum reads succeed,
`verify_remote_integrity` succeeds exactly when the remote size equals the
locally computed size and the remote SHA-256 equals the locally computed
SHA-256; a size mismatch raises the "Remote file size mismatch" error, a
checksum mismatch the distinct "Remote SHA256 mismatch" error; and whenever
`flash` raises any error, the destructive sysupgrade invocation never appears
in its effect trace. -/
theorem remote_integrity_c1 :
    (∀ (rp : String) (stat ls sha : RunResult) (S : String) (Z rs : Int) (rh : String),
      (get_remote_file_size rp stat ls).1 = Except.ok rs →
      (get_remote_sha256 rp sha).1 = Except.ok rh →
      ((verify_remote_integrity rp stat ls sha S Z).1 = Except.ok () ↔ (rs = Z ∧ rh = S))
      ∧ (rs ≠ Z →
          (verify_remote_integrity rp stat ls sha S Z).1
            = Except.error (FlashErr.sizeMismatch rs Z))
      ∧ (rs = Z → rh ≠ S →
          (verify_remote_integrity rp stat ls sha S Z).1
            = Except.error (FlashErr.sha256Mismatch rh S)))
    ∧ (∀ (a b : Int) (c d : String),
        FlashErr.sizeMismatch a b ≠ FlashErr.sha256Mismatch c d)
    ∧ (∀ (cfg : SysupgradeCfg) (env : FlashEnv) (args : FlashArgs) (e : FlashErr),
        (flash cfg env args).1 = Except.error e →
        ∀ c, FlashEff.sysupgradeExec c ∉ (flash cfg env args).2) := by
  refine ⟨?_, ?_, ?_⟩
  · intro rp stat ls sha S Z rs rh h1 h2
    rw [verify_remote_integrity_eq rp stat ls sha S Z rs rh h1 h2]
    by_cases hrs : rs = Z <;> by_cases hrh : rh = S <;> simp [hrs, hrh]
  · intro a b c d
    simp
  · intro cfg env args e he c hc
    have h2 : hasExec (flash cfg env args).2 = true :=
      List.any_eq_true.mpr ⟨FlashEff.sysupgradeExec c, hc, rfl⟩
    have h3 := flash_exec_implies_ok cfg env args h2
    rw [he] at h3
    exact Except.noConfusion h3

/-- Witness for C1 at concrete remote reads: matching size and checksum make
the verification pass. -/
theorem remote_integrity_c1_witness :
    (verify_remote_integrity "/tmp/sysupgrade.bin" ⟨["4194304"], [], 0⟩
        ⟨[], [], 1⟩ ⟨["abc123  /tmp/sysupgrade.bin"], [], 0⟩
        "abc123" 4194304).1 = Except.ok () :=
  ((remote_integrity_c1.1 "/tmp/sysupgrade.bin" ⟨["4194304"], [], 0⟩
      ⟨[], [], 1⟩ ⟨["abc123  /tmp/sysupgrade.bin"], [], 0⟩
      "abc123" 4194304 4194304 "abc123" rfl rfl).1).mpr ⟨rfl, rfl⟩

/-- C3: with an expected board configured and a different board reported (and
the sysupgrade-availability precheck passing), `flash` aborts with the board
mismatch error; its whole trace is the three read-only steps, so no firmware
data is uploaded and no sysupgrade is invoked; and the outcome is unchanged
under every value of the `force`/`allow_downgrade` flags. -/
theorem board_mismatch_aborts_c3 :
    ∀ (cfg : SysupgradeCfg) (env : FlashEnv) (args : FlashArgs) (eb bn : String),
      env.sysupgradeCheck.exitCode = 0 → env.sysupgradeCheck.stdout ≠ [] →
      cfg.expected_board = some eb →
      get_board_name env.boardNameResult = Except.ok bn →
      bn ≠ eb →
      flash cfg env args
        = (Except.error (FlashErr.boardMismatch bn eb),
           [FlashEff.activateShell, FlashEff.shellRun "command -v sysupgrade",
            FlashEff.shellRun "cat /tmp/sysinfo/board_name"])
      ∧ (∀ s d, FlashEff.put s d ∉ (flash cfg env args).2)
      ∧ (∀ c, FlashEff.sysupgradeExec c ∉ (flash cfg env args).2)
      ∧ (∀ (f : Bool) (dg : Option Bool),
          flash { cfg with force := f, allow_downgrade := dg } env args
            = flash cfg env args) := by
  intro cfg env args eb bn h1 h2 hb hg hne
  have hchk : check_sysupgrade_available env.sysupgradeCheck
      = (Except.ok (), [FlashEff.shellRun "command -v sysupgrade"]) := by
    simp [check_sysupgrade_available, h1, h2]
  have hvb : validate_board cfg env
      = (Except.error (FlashErr.boardMismatch bn eb),
         [FlashEff.shellRun "cat /tmp/sysinfo/board_name"]) := by
    simp [validate_board, hb, hg, hne]
  have hfl : flash cfg env args
      = (Except.error (FlashErr.boardMismatch bn eb),
         [FlashEff.activateShell, FlashEff.shellRun "command -v sysupgrade",
          FlashEff.shellRun "cat /tmp/sysinfo/board_name"]) := by
    simp [flash, hchk, hvb, bindE_ok, bindE_error]
  refine ⟨hfl, ?_, ?_, ?_⟩
  · intro s d; rw [hfl]; simp
  · intro c; rw [hfl]; simp
  · intro f dg
    have hvb' : validate_board { cfg with force := f, allow_downgrade := dg } env
        = (Except.error (FlashErr.boardMismatch bn eb),
           [FlashEff.shellRun "cat /tmp/sysinfo/board_name"]) := by
      simp [validate_board, hb, hg, hne]
    have hfl' : flash { cfg with force := f, allow_downgrade := dg } env args
        = (Except.error (FlashErr.boardMismatch bn eb),
           [FlashEff.activateShell, FlashEff.shellRun "command -v sysupgrade",
            FlashEff.shellRun "cat /tmp/sysinfo/board_name"]) := by
      simp [flash, hchk, hvb', bindE_ok, bindE_error]
    rw [hfl, hfl']

/-- Witness for C3 at a concrete configuration and device. -/
theorem board_mismatch_aborts_c3_witness :
    flash
      ⟨false, false, none, some "linksys,e8450-ubi", false, 2,
        "/tmp/sysupgrade.bin", false, 120⟩
      ⟨⟨["/sbin/sysupgrade"], [], 0⟩, ⟨["glinet,gl-ar750"], [], 0⟩,
        ⟨[], [], 0⟩, true, ⟨[], [], 0⟩, true, ⟨[], [], 0⟩, ⟨[], [], 0⟩,
        ⟨[], [], 0⟩, ⟨[], [], 0⟩, "abc123", 4194304⟩
      ⟨"/img/fw.bin", none, true, none, none, none⟩
      = (Except.error (FlashErr.boardMismatch "glinet,gl-ar750" "linksys,e8450-ubi"),
         [FlashEff.activateShell, FlashEff.shellRun "command -v sysupgrade",
          FlashEff.shellRun "cat /tmp/sysinfo/board_name"]) :=
  (board_mismatch_aborts_c3
    ⟨false, false, none, some "linksys,e8450-ubi", false, 2,
      "/tmp/sysupgrade.bin", false, 120⟩
    ⟨⟨["/sbin/sysupgrade"], [], 0⟩, ⟨["glinet,gl-ar750"], [], 0⟩,
      ⟨[], [], 0⟩, true, ⟨[], [], 0⟩, true, ⟨[], [], 0⟩, ⟨[], [], 0⟩,
      ⟨[], [], 0⟩, ⟨[], [], 0⟩, "abc123", 4194304⟩
    ⟨"/img/fw.bin", none, true, none, none, none⟩
    "linksys,e8450-ubi" "glinet,gl-ar750" rfl (by simp) rfl rfl
    (by simp)).1

/-- C8: with `skip_if_installed` configured, an expected version supplied,
and that version a substring of the device's DISTRIB_RELEASE or
DISTRIB_REVISION (and the earlier read-only checks passing), `flash` returns
success and its trace contains no upload, no free-space check (`df`), no SSH
activation and no sysupgrade invocation. -/
theorem skip_if_installed_c8 :
    ∀ (cfg : SysupgradeCfg) (env : FlashEnv) (args : FlashArgs)
      (v : String) (info : List (String × String)),
      env.sysupgradeCheck.exitCode = 0 → env.sysupgradeCheck.stdout ≠ [] →
      (validate_board cfg env).1 = Except.ok () →
      verify_local_checksum env.localSha256 args.expected_sha256
        = Except.ok env.localSha256 →
      cfg.skip_if_installed = true →
      args.expected_version = some v → v ≠ "" →
      get_installed_version env.releaseResult = Except.ok info →
      (containsSubstr (dictGetD info "DISTRIB_RELEASE" "") v
        || containsSubstr (dictGetD info "DISTRIB_REVISION" "") v) = true →
      (flash cfg env args).1 = Except.ok ()
      ∧ (∀ s d, FlashEff.put s d ∉ (flash cfg env args).2)
      ∧ FlashEff.sshRun "df -P /tmp | tail -1" ∉ (flash cfg env args).2
      ∧ FlashEff.activateSSH ∉ (flash cfg env args).2
      ∧ (∀ c, FlashEff.sysupgradeExec c ∉ (flash cfg env args).2) := by
  intro cfg env args v info h1 h2 hvb hlc hskip hev hvne hgi hsub
  have hchk : check_sysupgrade_available env.sysupgradeCheck
      = (Except.ok (), [FlashEff.shellRun "command -v sysupgrade"]) := by
    simp [check_sysupgrade_available, h1, h2]
  rcases hvbe : validate_board cfg env with ⟨vbr, L⟩
  rw [hvbe] at hvb
  rw [show vbr = (vbr, L).1 from rfl, hvb] at hvbe
  have hL : ∀ x ∈ L, x = FlashEff.shellRun "cat /tmp/sysinfo/board_name" := by
    have h := validate_board_effs cfg env
    rw [hvbe] at h
    exact h
  have hci : check_if_installed env.releaseResult (some v)
      = (true, [FlashEff.shellRun "cat /etc/openwrt_release"]) := by
    simp [check_if_installed, hvne, hgi, hsub]
  have hsk : skip_if_installed_check cfg env args.expected_version
      = (Except.ok true, [FlashEff.shellRun "cat /etc/openwrt_release"]) := by
    simp [skip_if_installed_check, hskip, hev, optTruthy, hvne, hci]
  have hfl : flash cfg env args
      = (Except.ok (),
         FlashEff.activateShell :: FlashEff.shellRun "command -v sysupgrade"
           :: (L ++ [FlashEff.shellRun "cat /etc/openwrt_release"])) := by
    simp [flash, hchk, hvbe, hlc, hsk, bindE_ok, bindE_error]
  refine ⟨by rw [hfl], ?_, ?_, ?_, ?_⟩
  · intro s d
    rw [hfl]
    simp only [List.mem_cons, List.mem_append, List.not_mem_nil, or_false]
    rintro (h | h | h | h) <;> first
      | exact FlashEff.noConfusion h
      | exact absurd (hL _ h) (by simp)
  · rw [hfl]
    simp only [List.mem_cons, List.mem_append, List.not_mem_nil, or_false]
    rintro (h | h | h | h) <;> first
      | exact FlashEff.noConfusion h
      | exact absurd (hL _ h) (by simp)
  · rw [hfl]
    simp only [List.mem_cons, List.mem_append, List.not_mem_nil, or_false]
    rintro (h | h | h | h) <;> first
      | exact FlashEff.noConfusion h
      | exact absurd (hL _ h) (by simp)
  · intro c
    rw [hfl]
    simp only [List.mem_cons, List.mem_append, List.not_mem_nil, or_false]
    rintro (h | h | h | h) <;> first
      | exact FlashEff.noConfusion h
      | exact absurd (hL _ h) (by simp)

/-- Witness for C8 at a concrete device reporting the expected release. -/
theorem skip_if_installed_c8_witness :
    (flash ⟨false, false, none, none, true, 2, "/tmp/sysupgrade.bin", false, 120⟩
      ⟨⟨["/sbin/sysupgrade"], [], 0⟩, ⟨[], [], 0⟩,
        ⟨["DISTRIB_RELEASE='23.05.5'"], [], 0⟩, true, ⟨[], [], 0⟩, true,
        ⟨[], [], 0⟩, ⟨[], [], 0⟩, ⟨[], [], 0⟩, ⟨[], [], 0⟩,
        "abc123", 4194304⟩
      ⟨"/img/fw.bin", none, true, none, some "23.05.5", none⟩).1
      = Except.ok () :=
  (skip_if_installed_c8
    ⟨false, false, none, none, true, 2, "/tmp/sysupgrade.bin", false, 120⟩
    ⟨⟨["/sbin/sysupgrade"], [], 0⟩, ⟨[], [], 0⟩,
      ⟨["DISTRIB_RELEASE='23.05.5'"], [], 0⟩, true, ⟨[], [], 0⟩, true,
      ⟨[], [], 0⟩, ⟨[], [], 0⟩, ⟨[], [], 0⟩, ⟨[], [], 0⟩,
      "abc123", 4194304⟩
    ⟨"/img/fw.bin", none, true, none, some "23.05.5", none⟩
    "23.05.5" [("DISTRIB_RELEASE", "23.05.5")]
    rfl (by simp) rfl rfl rfl rfl (by decide) rfl (by decide)).1

end LibreMeshHIL
